import Mathlib

/-!
Verification of the execution orchestrator in `app.py` of the
safe-code-executor repository.  The `/run` handler (`run_code`) validates
the submitted code, creates an ephemeral workspace directory, launches the
sandbox under a host-level deadline wrapper, classifies the completed
process, and removes the workspace.  We embed the handler shallowly: the
subprocess step becomes an explicit input (either a completed process or
the launch-failure exception message), and workspace side effects become an
explicit event trace.
-/

/-- Configuration constant `MAX_CODE_CHARS = 5000` from app.py. -/
def MAX_CODE_CHARS : Nat := 5000

/-- Configuration constant `TIMEOUT_SECONDS = 10` from app.py. -/
def TIMEOUT_SECONDS : Nat := 10

/-- The ASCII whitespace characters stripped by Python's `str.strip()`:
space, tab, newline, carriage return, vertical tab, form feed. -/
def isPyWhitespace (c : Char) : Bool :=
  c = ' ' || c = '\t' || c = '\n' || c = '\r' || c = '\x0b' || c = '\x0c'

/-- Python `s.strip()`: remove leading and trailing whitespace. -/
def pyStrip (s : String) : String :=
  String.mk (((s.data.dropWhile isPyWhitespace).reverse.dropWhile isPyWhitespace).reverse)

/-- Python `s.rstrip("\n")` as used at app.py line 97: remove every
trailing newline character. -/
def rstripNewlines (s : String) : String :=
  String.mk ((s.data.reverse.dropWhile (fun c => c = '\n')).reverse)

/-- Whether a string's last character is a newline. -/
def endsInNewline (s : String) : Bool :=
  match s.data.reverse with
  | c :: _ => c = '\n'
  | [] => false

/-- Python `s.lower()` restricted to the ASCII mapping, as applied to the
exception message at app.py line 82. -/
def toLowerStr (s : String) : String :=
  String.mk (s.data.map Char.toLower)

/-- Python's `pat in hay` substring test on character lists. -/
def containsSub (pat : List Char) : List Char → Bool
  | [] => pat.isEmpty
  | c :: t => pat.isPrefixOf (c :: t) || containsSub pat t

/-- The result of `subprocess.run`: numeric exit status of the wrapper
pipeline plus the captured output streams (app.py line 79). -/
structure CompletedProcess where
  returncode : Int
  stdout : String
  stderr : String
deriving DecidableEq

/-- A JSON response from the handler: HTTP status plus the optional
`output` and `error` fields of the serialized body. -/
structure HttpResponse where
  status : Nat
  output : Option String
  error : Option String
deriving DecidableEq

/-- Workspace side effects of one request: directory creation
(`os.makedirs`, app.py line 58) and removal (`shutil.rmtree`,
app.py lines 81 and 85). -/
inductive WsEvent where
  | create
  | destroy
deriving DecidableEq

/-- The JSON `code` field of the request body: either a string or any
non-string value (including an absent field, i.e. Python `None`). -/
inductive CodeField where
  | str (s : String)
  | nonStr

/-- app.py line 82: guess which required binary was missing from the
lowercased `FileNotFoundError` message. -/
def missingTool (excMsg : String) : String :=
  if containsSub "docker".data (toLowerStr excMsg).data then "docker" else "timeout"

/-- app.py lines 87-97: classify a completed process into a response.
Exit status 124 (GNU timeout's reserved code) yields the timeout error;
any other nonzero status yields the program-error response with stripped
streams; status zero yields success with trailing newlines removed. -/
def classify (completed : CompletedProcess) : HttpResponse :=
  if completed.returncode = 124 then
    { status := 400, output := none,
      error := some ("Execution timed out after " ++ toString TIMEOUT_SECONDS ++ " seconds") }
  else if completed.returncode ≠ 0 then
    { status := 400, output := some (pyStrip completed.stdout),
      error := some (if pyStrip completed.stderr = "" then
          "container exited with code " ++ toString completed.returncode
        else pyStrip completed.stderr) }
  else
    { status := 200, output := some (rstripNewlines completed.stdout), error := none }

/-- app.py lines 48-97, the `/run` handler.  `spawn` is the outcome of the
`subprocess.run` call: `Except.error e` models `FileNotFoundError` with
message `e`, `Except.ok completed` a completed wrapper pipeline.  The
second component is the trace of workspace events the handler performed. -/
def run_code (code : CodeField) (spawn : Except String CompletedProcess) :
    HttpResponse × List WsEvent :=
  match code with
  | .nonStr =>
      ({ status := 400, output := none, error := some "code must be a string" }, [])
  | .str c =>
      if c.length > MAX_CODE_CHARS then
        ({ status := 400, output := none,
           error := some ("code too long (max " ++ toString MAX_CODE_CHARS ++ ")") }, [])
      else
        match spawn with
        | .error e =>
            ({ status := 500, output := none,
               error := some ("Required tool not found: " ++ missingTool e) },
             [.create, .destroy])
        | .ok completed => (classify completed, [.create, .destroy])

/-- The spec's words for the claimed success transformation: stdout with
exactly one trailing newline stripped and nothing else altered. -/
def stripOneTrailingNewline (s : String) : String :=
  match s.data.reverse with
  | '\n' :: rest => String.mk rest.reverse
  | _ => s

/-! ### Helper lemmas -/

theorem dropWhile_first_fails {α} (p : α → Bool) :
    ∀ (l : List α) (c : α) (t : List α), l.dropWhile p = c :: t → p c = false := by
  intro l
  induction l with
  | nil => intro c t h; cases h
  | cons a l ih =>
      intro c t h
      rw [List.dropWhile_cons] at h
      by_cases hpa : p a
      · rw [if_pos hpa] at h; exact ih c t h
      · rw [if_neg hpa] at h
        cases h
        simpa using hpa

theorem takeWhile_all_sat {α} (p : α → Bool) (l : List α) :
    (l.takeWhile p).all p = true := by
  rw [List.all_eq_true]
  intro b hb
  exact List.mem_takeWhile_imp hb

/-! ### Claim theorems -/

/-- Claim C1: on every code path that creates a workspace — success,
program error, timeout, and launch failure alike — the workspace trace is
exactly one create followed by one destroy, while validation rejections
perform no workspace operation at all.  Hence `destroy` runs exactly once
per `create` before the handler returns. -/
theorem run_code_destroy_once_per_create (code : CodeField)
    (spawn : Except String CompletedProcess) :
    (run_code code spawn).2 = [] ∨
      (run_code code spawn).2 = [WsEvent.create, WsEvent.destroy] := by
  cases code with
  | nonStr => exact Or.inl rfl
  | str c =>
      by_cases h : c.length > MAX_CODE_CHARS
      · exact Or.inl (by simp [run_code, h])
      · refine Or.inr ?_
        cases spawn with
        | error e => simp [run_code, h]
        | ok completed => simp [run_code, h]

/-- Claim C2 fails on the code: a guest that itself exits with the deadline
wrapper's reserved code 124 is classified as a timeout, not as an ordinary
program error — the classifier inspects only the shared numeric exit
status, having no separate signal from the wrapper. -/
theorem guest_exit_124_misclassified :
    classify ⟨124, "x", "y"⟩ =
      { status := 400, output := none,
        error := some "Execution timed out after 10 seconds" } ∧
    classify ⟨124, "x", "y"⟩ ≠
      { status := 400, output := some (pyStrip "x"), error := some (pyStrip "y") } := by
  decide

/-- Claim C2 amended: classification of exit status 124 depends only on
the numeric code, never on the captured streams, so every run whose
wrapper pipeline exits 124 — including a guest that itself exits 124
without the host deadline expiring — receives the timeout outcome with no
guest output surfaced. -/
theorem classify_124_stream_independent (out err out2 err2 : String) :
    classify ⟨124, out, err⟩ = classify ⟨124, out2, err2⟩ ∧
    (classify ⟨124, out, err⟩).output = none := ⟨rfl, rfl⟩

/-- Claim C6: a timeout outcome surfaces no stdout and no stderr from the
guest, regardless of what the guest printed; its error message is the
fixed string built from the configured duration alone, and that string
carries the form "timed out after 10 seconds". -/
theorem timeout_outcome_no_guest_output (out err : String) :
    (classify ⟨124, out, err⟩).output = none ∧
    (classify ⟨124, out, err⟩).error =
      some ("Execution timed out after " ++ toString TIMEOUT_SECONDS ++ " seconds") ∧
    containsSub "timed out after 10 seconds".data
      ("Execution timed out after " ++ toString TIMEOUT_SECONDS ++ " seconds").data = true := by
  refine ⟨rfl, rfl, by decide⟩

/-- Claim C8: a non-string code field is rejected with the validation
error and an empty workspace trace — no directory is created and no spawn
outcome is even consulted. -/
theorem non_string_rejected (spawn : Except String CompletedProcess) :
    run_code .nonStr spawn =
      ({ status := 400, output := none, error := some "code must be a string" }, []) := rfl

/-- Claim C9: classification is a deterministic function of the triple
(exit status, stdout, stderr): two completed processes with equal
observations are classified into the same response, tag and payload
alike. -/
theorem classify_deterministic (r1 r2 : CompletedProcess)
    (hc : r1.returncode = r2.returncode) (ho : r1.stdout = r2.stdout)
    (he : r1.stderr = r2.stderr) : classify r1 = classify r2 := by
  cases r1
  cases r2
  simp only at hc ho he
  rw [hc, ho, he]

/-- Witness for C9 at a concrete pair of equal observations. -/
theorem classify_deterministic_witness :
    classify ⟨0, "a", "b"⟩ = classify ⟨0, "a", "b"⟩ :=
  classify_deterministic ⟨0, "a", "b"⟩ ⟨0, "a", "b"⟩ rfl rfl rfl

/-- Claim C10: a submission of length exactly MAX_CODE_CHARS passes the
strict greater-than check, so the boundary value proceeds to workspace
creation and execution (the trace shows the workspace created and later
destroyed). -/
theorem boundary_length_accepted (c : String) (spawn : Except String CompletedProcess)
    (h : c.length = MAX_CODE_CHARS) :
    (run_code (.str c) spawn).2 = [WsEvent.create, WsEvent.destroy] := by
  have h2 : ¬ c.length > MAX_CODE_CHARS := by omega
  cases spawn with
  | error e => simp [run_code, h2]
  | ok completed => simp [run_code, h2]

/-- Witness for C10: a 5000-character submission is accepted. -/
theorem boundary_length_accepted_witness :
    (String.mk (List.replicate 5000 'a')).length = MAX_CODE_CHARS ∧
    (run_code (.str (String.mk (List.replicate 5000 'a'))) (.ok ⟨0, "", ""⟩)).2 =
      [WsEvent.create, WsEvent.destroy] := by
  have h : (String.mk (List.replicate 5000 'a')).length = MAX_CODE_CHARS := by
    show (List.replicate 5000 'a').length = MAX_CODE_CHARS
    rw [List.length_replicate]
    rfl
  exact ⟨h, boundary_length_accepted _ _ h⟩

/-- Claim C4: an oversized submission is rejected with the validation
error and an empty workspace trace: the length check precedes workspace
allocation, so rejection allocates nothing. -/
theorem oversized_rejected_before_workspace (c : String)
    (spawn : Except String CompletedProcess) (h : c.length > MAX_CODE_CHARS) :
    run_code (.str c) spawn =
      ({ status := 400, output := none,
         error := some ("code too long (max " ++ toString MAX_CODE_CHARS ++ ")") }, []) := by
  simp [run_code, h]

/-- Witness for C4: a 5001-character submission is rejected with no
workspace event. -/
theorem oversized_rejected_before_workspace_witness :
    (String.mk (List.replicate 5001 'a')).length > MAX_CODE_CHARS ∧
    run_code (.str (String.mk (List.replicate 5001 'a'))) (.ok ⟨0, "", ""⟩) =
      ({ status := 400, output := none,
         error := some ("code too long (max " ++ toString MAX_CODE_CHARS ++ ")") }, []) := by
  have h : (String.mk (List.replicate 5001 'a')).length > MAX_CODE_CHARS := by
    show (List.replicate 5001 'a').length > MAX_CODE_CHARS
    rw [List.length_replicate]
    decide
  exact ⟨h, oversized_rejected_before_workspace _ _ h⟩

/-- Claim C3 fails on the code: for stdout "a\n\n" the success output is
"a" — the handler removes every trailing newline — while the claimed
one-newline stripping demands "a\n". -/
theorem success_output_counterexample :
    classify ⟨0, "a\n\n", ""⟩ ≠
      { status := 200, output := some (stripOneTrailingNewline "a\n\n"), error := none } := by
  decide

/-- Claim C3 amended: a zero-status run returns Success whose output is
stdout with ALL trailing newlines removed and nothing else altered: stdout
decomposes as the output followed by a run of newlines, and the output no
longer ends in a newline — so a stdout ending in two newlines yields an
output ending in none. -/
theorem success_output_strips_all_trailing_newlines (out err : String) :
    ∃ k, classify ⟨0, out, err⟩ =
        { status := 200, output := some (rstripNewlines out), error := none } ∧
      out.data = (rstripNewlines out).data ++ List.replicate k '\n' ∧
      endsInNewline (rstripNewlines out) = false := by
  refine ⟨(out.data.reverse.takeWhile (fun c => c = '\n')).length, rfl, ?_, ?_⟩
  · have hall : ∀ b ∈ out.data.reverse.takeWhile (fun c => c = '\n'), b = '\n' := by
      intro b hb
      simpa using List.mem_takeWhile_imp hb
    have hrep := List.eq_replicate_of_mem hall
    conv_lhs => rw [← out.data.reverse_reverse,
      ← List.takeWhile_append_dropWhile (p := fun c => c = '\n') (l := out.data.reverse),
      List.reverse_append, hrep, List.reverse_replicate]
    rfl
  · cases hd : out.data.reverse.dropWhile (fun c => c = '\n') with
    | nil => simp [endsInNewline, rstripNewlines, hd]
    | cons c t =>
        have hc := dropWhile_first_fails (fun c => decide (c = '\n')) _ _ _ hd
        simp [endsInNewline, rstripNewlines, hd]
        simpa using hc

/-- Claim C5: a nonzero, non-timeout exit status yields the program-error
response: the output is stdout stripped of surrounding whitespace (stdout
decomposes as whitespace, then the output, then whitespace), and the error
is the stripped stderr when that is nonempty, otherwise the synthetic
message naming the exit code. -/
theorem program_error_classification (rc : Int) (out err : String)
    (h124 : rc ≠ 124) (h0 : rc ≠ 0) :
    classify ⟨rc, out, err⟩ =
      { status := 400, output := some (pyStrip out),
        error := some (if pyStrip err = "" then
            "container exited with code " ++ toString rc
          else pyStrip err) } ∧
    ∃ pre post, out.data = pre ++ ((pyStrip out).data ++ post) ∧
      pre.all isPyWhitespace = true ∧ post.all isPyWhitespace = true := by
  constructor
  · simp [classify, h124, h0]
  · have hm : out.data.dropWhile isPyWhitespace =
        (pyStrip out).data ++
          ((out.data.dropWhile isPyWhitespace).reverse.takeWhile isPyWhitespace).reverse := by
      conv_lhs => rw [← (out.data.dropWhile isPyWhitespace).reverse_reverse,
        ← List.takeWhile_append_dropWhile (p := isPyWhitespace)
           (l := (out.data.dropWhile isPyWhitespace).reverse),
        List.reverse_append]
      rfl
    refine ⟨out.data.takeWhile isPyWhitespace,
      ((out.data.dropWhile isPyWhitespace).reverse.takeWhile isPyWhitespace).reverse,
      ?_, takeWhile_all_sat _ _, ?_⟩
    · conv_lhs => rw [← List.takeWhile_append_dropWhile (p := isPyWhitespace) (l := out.data), hm]
    · rw [List.all_reverse]
      exact takeWhile_all_sat _ _

/-- Witness for C5 at exit code 2 with stdout " hi " and empty stderr. -/
theorem program_error_classification_witness :
    (2 : Int) ≠ 124 ∧ (2 : Int) ≠ 0 ∧
    classify ⟨2, " hi ", ""⟩ =
      { status := 400, output := some (pyStrip " hi "),
        error := some (if pyStrip "" = "" then
            "container exited with code " ++ toString (2 : Int)
          else pyStrip "") } :=
  ⟨by decide, by decide,
    (program_error_classification 2 " hi " "" (by decide) (by decide)).1⟩

/-- Claim C7: when the spawn raises FileNotFoundError, the handler returns
a 500 infrastructure error naming the missing dependency (docker or the
timeout wrapper) — a status no classified guest outcome ever carries, so
it is distinguishable from every guest-program failure — and the workspace
it created is destroyed before returning, leaving nothing behind. -/
theorem launch_failure_infra_error (c e : String) (h : ¬ c.length > MAX_CODE_CHARS) :
    run_code (.str c) (.error e) =
      ({ status := 500, output := none,
         error := some ("Required tool not found: " ++ missingTool e) },
       [WsEvent.create, WsEvent.destroy]) ∧
    (missingTool e = "docker" ∨ missingTool e = "timeout") ∧
    ∀ completed : CompletedProcess, (classify completed).status ≠ 500 := by
  refine ⟨by simp [run_code, h], ?_, ?_⟩
  · unfold missingTool
    split
    · exact Or.inl rfl
    · exact Or.inr rfl
  · intro completed
    unfold classify
    split
    · simp
    · split
      · simp
      · simp

/-- Witness for C7 at a concrete missing-binary exception message. -/
theorem launch_failure_infra_error_witness :
    ¬ ("".length > MAX_CODE_CHARS) ∧
    run_code (.str "") (.error "No such file or directory: timeout") =
      ({ status := 500, output := none,
         error := some ("Required tool not found: "
            ++ missingTool "No such file or directory: timeout") },
       [WsEvent.create, WsEvent.destroy]) := by
  have h : ¬ ("".length > MAX_CODE_CHARS) := by decide
  exact ⟨h, (launch_failure_infra_error "" "No such file or directory: timeout" h).1⟩
